import Mathlib

/-!
Verification development for the LilaWeltWeather MQTT weather service
(src/main.py and src/dotdict.py), as a shallow embedding in Lean 4.

Python strings are modelled as lists of characters (`Str`), Python values
reachable from JSON payloads as `PyVal`, exceptions as the `PyErr` error
channel of `Except`, and the three module-level caches plus the provider
call counters as an explicit state record (`SysState`) threaded through
the request handlers.  External collaborators (the Nominatim geolocator,
the timezone finder and the HTTP client used for the forecast) are
parameters (`Collab`), so theorems quantify over their behaviour.
-/

/-- Python strings, modelled as lists of unicode characters. -/
abbrev Str := List Char

/-- The Python exception classes that the embedded code can raise.
`providerError` stands for any exception raised inside an external
collaborator call (network failure, no result, bad payload). -/
inductive PyErr where
  | attributeError
  | typeError
  | valueError
  | keyError
  | providerError
deriving DecidableEq, Repr

/-- Python values reachable from decoded JSON payloads and provider
results.  `vdict` is a plain `dict`, `vdot` is a `DotDict` instance
(src/dotdict.py subclasses `dict`); the distinction matters because
`DotDict.__getattr__` re-wraps a value only when `type(v) == dict`.
JSON arrays are not modelled; no claim depends on them. -/
inductive PyVal where
  | vnone : PyVal
  | vnum  : ℚ → PyVal
  | vstr  : Str → PyVal
  | vdict : List (Str × PyVal) → PyVal
  | vdot  : List (Str × PyVal) → PyVal

/-- A `DotDict` object: its `dict` entries plus the Python instance
attributes later assigned onto the object (its `__dict__`).  `DotDict`
defines no `__setattr__`, so `obj.name = v` stores an instance
attribute and never touches the dict entries. -/
structure PyDotDict where
  entries : List (Str × PyVal)
  attrs   : List (Str × PyVal)

/-- Association-list lookup: Python `d[k]` / `k in d` on a dict with
unique keys (first match). -/
def assocLookup {K V : Type} [DecidableEq K] : List (K × V) → K → Option V
  | [], _ => none
  | (k2, v) :: r, k => if k2 = k then some v else assocLookup r k

/-- Remove every binding of a key from an association list. -/
def assocRemove {K V : Type} [DecidableEq K] : List (K × V) → K → List (K × V)
  | [], _ => []
  | (k2, v) :: r, k => if k2 = k then assocRemove r k else (k2, v) :: assocRemove r k

/-- Python `k in d` for dict entry lists. -/
def hasKey (m : List (Str × PyVal)) (k : Str) : Bool :=
  (assocLookup m k).isSome

/-- Python `s.startswith(p)` on strings. -/
def strStartsWith : Str → Str → Bool
  | _, [] => true
  | [], _ :: _ => false
  | c :: t, d :: p => c == d && strStartsWith t p

/-- `DotDict.__getattr__` wraps a looked-up value in a `DotDict` exactly
when `type(self[name]) == dict`, i.e. only plain dicts. -/
def wrapIfDict : PyVal → PyVal
  | .vdict m => .vdot m
  | v => v

/-- The dict comprehension in `DotDict.__getattr__`: all entries whose
key starts with `name + "."`, rebound to the suffix after that dot
(`k[name_len:]` with `name_len = len(name + ".")`). -/
def dotSubkeys (m : List (Str × PyVal)) (name : Str) : List (Str × PyVal) :=
  (m.filter (fun p => strStartsWith p.1 (name ++ ['.']))).map
    (fun p => (p.1.drop (name ++ ['.']).length, p.2))

/-- `DotDict.__getattr__` (src/dotdict.py lines 27-39): a present key is
served (plain dict values re-wrapped), otherwise keys with the dotted
prefix are collected, otherwise `AttributeError` is raised. -/
def dotGetattr (m : List (Str × PyVal)) (name : Str) : Except PyErr PyVal :=
  match assocLookup m name with
  | some v => .ok (wrapIfDict v)
  | none =>
    match dotSubkeys m name with
    | [] => .error .attributeError
    | sk => .ok (.vdot sk)

/-- Attribute read on a `DotDict` object.  Python resolves the instance
`__dict__` before falling back to `__getattr__`. -/
def pyGetattr (d : PyDotDict) (name : Str) : Except PyErr PyVal :=
  match assocLookup d.attrs name with
  | some v => .ok v
  | none => dotGetattr d.entries name

/-- Attribute assignment `obj.name = v` on a `DotDict`: no custom
`__setattr__`, so only the instance attribute dictionary changes. -/
def pySetattr (d : PyDotDict) (name : Str) (v : PyVal) : PyDotDict :=
  { d with attrs := assocRemove d.attrs name ++ [(name, v)] }

/-- Attribute read on an arbitrary value, as used for `address.city`.
Wrapped `DotDict` values dispatch to `__getattr__`; other values have no
such attribute and raise `AttributeError` (builtin attributes unrelated
to the program are not modelled). -/
def valGetattr : PyVal → Str → Except PyErr PyVal
  | .vdot m, name => dotGetattr m name
  | _, _ => .error .attributeError

/-- Python substring test, for `in` applied to a string. -/
def strHasSub : Str → Str → Bool
  | [], needle => needle.isEmpty
  | c :: t, needle => strStartsWith (c :: t) needle || strHasSub t needle

/-- The Python `in` operator as used by the source: key membership on
dicts, substring test on strings, `TypeError` otherwise. -/
def pyContains (v : PyVal) (k : Str) : Except PyErr Bool :=
  match v with
  | .vdict m => .ok (hasKey m k)
  | .vdot m => .ok (hasKey m k)
  | .vstr s => .ok (strHasSub s k)
  | _ => .error .typeError

/-- `str` check for one `join` item: `str.join` raises `TypeError` on
any non-string item (in particular on `None`). -/
def pyStrOf : PyVal → Except PyErr Str
  | .vstr s => .ok s
  | _ => .error .typeError

/-- Check all items of a `join`, left to right. -/
def pyJoinAux : List PyVal → Except PyErr (List Str)
  | [] => .ok []
  | v :: r =>
    match pyStrOf v with
    | .error e => .error e
    | .ok s =>
      match pyJoinAux r with
      | .error e => .error e
      | .ok ss => .ok (s :: ss)

/-- Python `sep.join(items)`. -/
def pyJoin (sep : Str) (items : List PyVal) : Except PyErr Str :=
  match pyJoinAux items with
  | .error e => .error e
  | .ok ss => .ok (List.intercalate sep ss)

/-- Python `place.lower()`: full lowercasing on a string, and
`AttributeError` on values without that method. -/
def pyLowerV : PyVal → Except PyErr Str
  | .vstr s => .ok (s.map Char.toLower)
  | _ => .error .attributeError

/-- A simplified model of Python `float(x)`: numbers pass through,
decimal strings (optional sign, digits, optional fraction) parse, other
strings raise `ValueError`, other values `TypeError`.  Exponents and
special forms are not modelled; no claim depends on them. -/
def digitsVal (ds : Str) : ℕ :=
  ds.foldl (fun a c => a * 10 + (c.toNat - 48)) 0

/-- Unsigned decimal literal parser used by the `float(x)` model. -/
def parseUnsigned (s : Str) : Option ℚ :=
  let ip := s.takeWhile Char.isDigit
  let rest := s.dropWhile Char.isDigit
  if ip.isEmpty then none
  else
    match rest with
    | [] => some ((digitsVal ip : ℚ))
    | '.' :: fr =>
      if fr.all Char.isDigit then
        some ((digitsVal ip : ℚ) + (digitsVal fr : ℚ) / (10 ^ fr.length))
      else none
    | _ => none

/-- Signed decimal literal parser used by the `float(x)` model. -/
def parsePyFloat (s : Str) : Option ℚ :=
  match s with
  | '-' :: t => (parseUnsigned t).map Neg.neg
  | _ => parseUnsigned s

/-- Python `float(v)`. -/
def pyFloatV : PyVal → Except PyErr ℚ
  | .vnum q => .ok q
  | .vstr s =>
    match parsePyFloat s with
    | some q => .ok q
    | none => .error .valueError
  | _ => .error .typeError

/-! ### String constants of the source -/

/-- Dict key address. -/
def addressK : Str := "address".data
/-- Dict key suburb. -/
def suburbK : Str := "suburb".data
/-- Dict key city. -/
def cityK : Str := "city".data
/-- Dict key state. -/
def stateK : Str := "state".data
/-- Dict key display_name. -/
def dnK : Str := "display_name".data
/-- Request field lat. -/
def latK : Str := "lat".data
/-- Request field lon. -/
def lonK : Str := "lon".data
/-- Request field place. -/
def placeK : Str := "place".data
/-- Envelope key topic. -/
def topicK : Str := "topic".data
/-- Envelope key error. -/
def errorK : Str := "error".data
/-- Envelope key msg. -/
def msgK : Str := "msg".data
/-- Envelope key location. -/
def locationK : Str := "location".data
/-- Envelope key timezone. -/
def timezoneK : Str := "timezone".data
/-- Envelope key forecast. -/
def forecastK : Str := "forecast".data
/-- The errorKind key promised by the specification; it never occurs in
the source. -/
def errorKindK : Str := "errorKind".data
/-- Envelope topic value for errors. -/
def errorTopicS : Str := "error".data
/-- Error kind string used by both request handlers. -/
def geocodeErrorS : Str := "GEOCODE_ERROR".data
/-- Success topic of place_request. -/
def placeTopicS : Str := "place_request".data
/-- Success topic of point_request. -/
def pointTopicS : Str := "point_request".data
/-- The join separator of rev_geocode. -/
def commaSep : Str := ", ".data
/-- Message of the unknown-request error envelope.  The source
interpolates the repr of the request; the interpolated tail is not
modelled and no claim inspects it. -/
def unknownMsgS : Str := "Unknown request".data
/-- Message of the payload-parse error envelope (interpolated payload
tail not modelled). -/
def parseErrMsgS : Str := "Error parsing payload".data
/-- Message of the geocode error envelope (interpolated tail not
modelled). -/
def failedGeocodeMsgS : Str := "Failed to geocode".data
/-- Message of the reverse-geocode error envelope (interpolated tail not
modelled). -/
def failedRevGeocodeMsgS : Str := "Failed to reverse-geocode".data
/-- The single weather provider URL of the source (main.py line 17). -/
def weather_url : Str :=
  "https://api.met.no/weatherapi/locationforecast/2.0/complete.json".data

/-! ### Global state and collaborators -/

/-- The module-level mutable state of main.py: the three caches
(`geocode_cache` dict, `rev_geocode_cache` LRUCache(1000), the TTLCache
of `get_forecast_`) plus instrumentation counting provider calls and
logging the URLs requested by the forecast fetcher.  Reverse-geocode
cache keys are the two coordinates rounded to three decimals,
represented as integer thousandths: the source formats them as the
string f-string of the pair, which identifies exactly the rounded
pair. -/
structure SysState where
  geoCache : List (Str × PyDotDict)
  geoCalls : ℕ
  revCache : List ((ℤ × ℤ) × PyDotDict)
  revCalls : ℕ
  fcCache : List ((ℚ × ℚ) × (Option PyVal × ℕ))
  fcCalls : ℕ
  fcUrls : List Str

/-- The external collaborators of main.py: forward geocoder, reverse
geocoder, timezone finder and the HTTP client used by the forecast
fetcher.  Each may raise; `geocode`/`reverse` yield the raw dict of the
location on success (a geolocator returning no match makes the
subsequent `.raw` access raise, which is folded into the error case). -/
structure Collab where
  geocode : PyVal → Except PyErr (List (Str × PyVal))
  reverse : PyVal → PyVal → Except PyErr (List (Str × PyVal))
  tz : PyVal → PyVal → Except PyErr (Option Str)
  http : Str → ℚ → ℚ → Except PyErr PyVal

/-- The initial state: all caches empty, no calls made. -/
def initState : SysState := ⟨[], 0, [], 0, [], 0, []⟩

/-! ### Forecast fetcher (main.py lines 34-48 and 88-94) -/

/-- TTL of the forecast cache: timedelta(minutes=10).seconds = 600. -/
def forecastTTL : ℕ := 600

/-- TTLCache lookup at time `now`: an entry inserted at `t` answers
while `now < t + ttl` and counts as absent afterwards. -/
def fcLookup (es : List ((ℚ × ℚ) × (Option PyVal × ℕ))) (k : ℚ × ℚ)
    (now : ℕ) : Option (Option PyVal) :=
  match assocLookup es k with
  | some p => if now < p.2 + forecastTTL then some p.1 else none
  | none => none

/-- TTLCache insertion at time `now`: expired entries are dropped, the
key is (re)bound most recently, and the oldest entries are evicted while
more than maxsize = 100 remain. -/
def fcInsert (es : List ((ℚ × ℚ) × (Option PyVal × ℕ))) (k : ℚ × ℚ)
    (v : Option PyVal) (now : ℕ) : List ((ℚ × ℚ) × (Option PyVal × ℕ)) :=
  let live := es.filter (fun e => decide (now < e.2.2 + forecastTTL))
  let es2 := assocRemove live k ++ [(k, (v, now))]
  if 100 < es2.length then es2.drop (es2.length - 100) else es2

/-- `get_forecast_` with its `@cached(cache=TTLCache(100, ttl=600))`
wrapper: on a live cached entry the stored return value is served
(including a stored `None`); on a miss the provider is called, any
exception is caught and turned into `None`, and the return value —
successful or `None` — is stored in the TTL cache. -/
def get_forecast_ (co : Collab) (st : SysState) (now : ℕ) (lat lon : ℚ) :
    SysState × Option PyVal :=
  match fcLookup st.fcCache (lat, lon) now with
  | some v => (st, v)
  | none =>
    let v : Option PyVal :=
      match co.http weather_url lat lon with
      | .ok j => some j
      | .error _ => none
    ({ st with
        fcCache := fcInsert st.fcCache (lat, lon) v now,
        fcCalls := st.fcCalls + 1,
        fcUrls := st.fcUrls ++ [weather_url] }, v)

/-- `get_forecast` simply delegates to the cached `get_forecast_`. -/
def get_forecast (co : Collab) (st : SysState) (now : ℕ) (lat lon : ℚ) :
    SysState × Option PyVal :=
  get_forecast_ co st now lat lon

/-! ### Forward geocode (main.py lines 51-57) -/

/-- `geocode_place`: the cache key is `place.lower()` — lowercased only,
the source performs no whitespace trimming.  On a hit the cached record
is returned with no provider call; on a miss the geolocator is called
(counted even when it raises), the raw payload is wrapped in a
`DotDict` and stored before being returned. -/
def geocode_place (co : Collab) (st : SysState) (place : PyVal) :
    SysState × Except PyErr PyDotDict :=
  match pyLowerV place with
  | .error e => (st, .error e)
  | .ok key =>
    match assocLookup st.geoCache key with
    | some loc => (st, .ok loc)
    | none =>
      let st1 := { st with geoCalls := st.geoCalls + 1 }
      match co.geocode place with
      | .error e => (st1, .error e)
      | .ok raw =>
        let loc : PyDotDict := ⟨raw, []⟩
        ({ st1 with geoCache := assocRemove st1.geoCache key ++ [(key, loc)] },
         .ok loc)

/-! ### Reverse geocode (main.py lines 60-85) -/

/-- The rounded-coordinate cache key: both coordinates rounded to three
decimals, held as integer thousandths.  The source formats the key as
an f-string with .3f precision, which determines exactly this pair;
non-numeric inputs make the format specifier raise. -/
def revKeyV (lat lon : PyVal) : Except PyErr (ℤ × ℤ) :=
  match lat, lon with
  | .vnum a, .vnum b => .ok (round (a * 1000), round (b * 1000))
  | _, _ => .error .typeError

/-- `LRUCache(1000).__setitem__`: the key is (re)bound most recently and
least-recently-used entries are evicted from the front while more than
1000 remain.  The entry list is ordered least recently used first. -/
def lruPut (es : List ((ℤ × ℤ) × PyDotDict)) (k : ℤ × ℤ) (v : PyDotDict) :
    List ((ℤ × ℤ) × PyDotDict) :=
  let es2 := assocRemove es k ++ [(k, v)]
  if 1000 < es2.length then es2.drop (es2.length - 1000) else es2

/-- The address normalization step of `rev_geocode` (main.py lines
65-81): wrap the raw payload as a `DotDict`; when an `address` entry is
present read it attribute-style, take `suburb` when present else
`None`, read `city` and `state` unconditionally (raising
`AttributeError` when missing), join the three with a comma (raising
`TypeError` when any item is not a string, in particular a `None`
suburb), and assign the joined string to the `display_name`
attribute of the object. -/
def normalizeRev (raw : List (Str × PyVal)) : Except PyErr PyDotDict :=
  if hasKey raw addressK then
    match pyGetattr ⟨raw, []⟩ addressK with
    | .error e => .error e
    | .ok address =>
      match pyContains address suburbK with
      | .error e => .error e
      | .ok hasSub =>
        match (if hasSub then valGetattr address suburbK else .ok .vnone) with
        | .error e => .error e
        | .ok suburb =>
          match valGetattr address cityK with
          | .error e => .error e
          | .ok city =>
            match valGetattr address stateK with
            | .error e => .error e
            | .ok state =>
              match pyJoin commaSep [suburb, city, state] with
              | .error e => .error e
              | .ok dn => .ok (pySetattr ⟨raw, []⟩ dnK (.vstr dn))
  else .ok ⟨raw, []⟩

/-- `rev_geocode`: key the LRU cache by the rounded coordinates; a hit
is served through `__getitem__`, which also moves the key to most
recently used.  On a miss the reverse geolocator is called (counted
even when it raises), the result is normalized, stored — evicting the
least recently used entry if the cache is full — and returned through
`__getitem__`.  Nothing is stored when the provider or the
normalization raises. -/
def rev_geocode (co : Collab) (st : SysState) (lat lon : PyVal) :
    SysState × Except PyErr PyDotDict :=
  match revKeyV lat lon with
  | .error e => (st, .error e)
  | .ok k =>
    match assocLookup st.revCache k with
    | some loc =>
      ({ st with revCache := assocRemove st.revCache k ++ [(k, loc)] }, .ok loc)
    | none =>
      let st1 := { st with revCalls := st.revCalls + 1 }
      match co.reverse lat lon with
      | .error e => (st1, .error e)
      | .ok raw =>
        match normalizeRev raw with
        | .error e => (st1, .error e)
        | .ok loc =>
          let c1 := lruPut st1.revCache k loc
          match assocLookup c1 k with
          | some v =>
            ({ st1 with revCache := assocRemove c1 k ++ [(k, v)] }, .ok v)
          | none => (st1, .error .keyError)

/-! ### Request handlers (main.py lines 96-135) -/

/-- Response envelopes, as the dicts the handlers build; `json.dumps`
serializes them field by field, and serializes a `DotDict` location by
its dict entries only — instance attributes are invisible to the
serializer. -/
abbrev Envelope := List (Str × PyVal)

/-- The error envelope of the two request handlers. -/
def errEnvelope (kind msg : Str) : Envelope :=
  [(topicK, .vstr errorTopicS), (errorK, .vstr kind), (msgK, .vstr msg)]

/-- A success envelope; the location is serialized from its dict
entries. -/
def successEnvelope (t : Str) (loc : PyDotDict) (tzv : Option Str)
    (fc : Option PyVal) : Envelope :=
  [(topicK, .vstr t),
   (locationK, .vdict loc.entries),
   (timezoneK, match tzv with | some s => .vstr s | none => .vnone),
   (forecastK, match fc with | some j => j | none => .vnone)]

/-- `place_request`: geocoding failures are caught and turned into a
GEOCODE_ERROR envelope, but `float(location.lat)`,
`float(location.lon)` and the timezone lookup run outside the `try`
block — an exception there propagates to the caller. -/
def place_request (co : Collab) (st : SysState) (now : ℕ) (place : PyVal) :
    SysState × Except PyErr Envelope :=
  match geocode_place co st place with
  | (st2, .error _) => (st2, .ok (errEnvelope geocodeErrorS failedGeocodeMsgS))
  | (st2, .ok location) =>
    match (pyGetattr location latK).bind pyFloatV with
    | .error e => (st2, .error e)
    | .ok lat =>
      match (pyGetattr location lonK).bind pyFloatV with
      | .error e => (st2, .error e)
      | .ok lon =>
        match co.tz (.vnum lat) (.vnum lon) with
        | .error e => (st2, .error e)
        | .ok tzv =>
          match get_forecast co st2 now lat lon with
          | (st3, fc) => (st3, .ok (successEnvelope placeTopicS location tzv fc))

/-- `point_request`: reverse-geocoding failures (including a
non-numeric coordinate reaching the cache-key format specifier) are
caught and turned into a GEOCODE_ERROR envelope; the timezone lookup
runs outside the `try` block and an exception there propagates.  A
successful `rev_geocode` implies the coordinates were numeric, which
the final case analysis makes explicit for the forecast call. -/
def point_request (co : Collab) (st : SysState) (now : ℕ) (lat lon : PyVal) :
    SysState × Except PyErr Envelope :=
  match rev_geocode co st lat lon with
  | (st2, .error _) => (st2, .ok (errEnvelope geocodeErrorS failedRevGeocodeMsgS))
  | (st2, .ok location) =>
    match co.tz lat lon with
    | .error e => (st2, .error e)
    | .ok tzv =>
      match lat, lon with
      | .vnum a, .vnum b =>
        match get_forecast co st2 now a b with
        | (st3, fc) => (st3, .ok (successEnvelope pointTopicS location tzv fc))
      | _, _ => (st2, .error .typeError)

/-- `hasattr(req, k)` on the SimpleNamespace decoded from the payload:
true exactly when the decoded JSON object has the field. -/
def pyHasattr (v : PyVal) (k : Str) : Bool :=
  match v with
  | .vdict m => hasKey m k
  | .vdot m => hasKey m k
  | _ => false

/-- Field read on the decoded request object. -/
def nsGetattr (v : PyVal) (k : Str) : Option PyVal :=
  match v with
  | .vdict m => assocLookup m k
  | .vdot m => assocLookup m k
  | _ => none

/-- The parse-failure error envelope of `on_message` (no error kind
field at all). -/
def parseErrEnvelope : Envelope :=
  [(topicK, .vstr errorTopicS), (msgK, .vstr parseErrMsgS)]

/-- The unknown-request error envelope of `on_message`: topic and msg
only — no errorKind field and no BAD_REQUEST marker appear anywhere in
the source. -/
def unknownEnvelope : Envelope :=
  [(topicK, .vstr errorTopicS), (msgK, .vstr unknownMsgS)]

/-- `on_message` (main.py lines 149-175).  `none` models a payload that
fails JSON decoding (the handler publishes a parse error envelope and
returns).  Otherwise the handler dispatches on `hasattr(req, "place")`
then on `hasattr(req, "lat") and hasattr(req, "lon")`, falling through
to the unknown-request envelope, and publishes exactly the one response
it computed.  The returned `Except` is the list of published envelopes,
or the exception that escaped the handler before anything was
published. -/
def on_message (co : Collab) (st : SysState) (now : ℕ)
    (payload : Option PyVal) : SysState × Except PyErr (List Envelope) :=
  match payload with
  | none => (st, .ok [parseErrEnvelope])
  | some req =>
    if pyHasattr req placeK then
      match nsGetattr req placeK with
      | some p =>
        match place_request co st now p with
        | (st2, .error e) => (st2, .error e)
        | (st2, .ok env) => (st2, .ok [env])
      | none => (st, .error .attributeError)
    else if pyHasattr req latK && pyHasattr req lonK then
      match nsGetattr req latK, nsGetattr req lonK with
      | some la, some lo =>
        match point_request co st now la lo with
        | (st2, .error e) => (st2, .error e)
        | (st2, .ok env) => (st2, .ok [env])
      | _, _ => (st, .error .attributeError)
    else
      (st, .ok [unknownEnvelope])

/-! ### Concrete collaborators used by witnesses and counterexamples -/

/-- A collaborator whose every call raises. -/
def failCollab : Collab :=
  ⟨fun _ => .error .providerError, fun _ _ => .error .providerError,
   fun _ _ => .error .providerError, fun _ _ _ => .error .providerError⟩

/-- A collaborator whose every call succeeds with the simplest
payload. -/
def okCollab : Collab :=
  ⟨fun _ => .ok [], fun _ _ => .ok [],
   fun _ _ => .ok none, fun _ _ _ => .ok (.vdict [])⟩

/-! ### Association-list lemmas -/

theorem assocLookup_append_some {K V : Type} [DecidableEq K]
    {l1 l2 : List (K × V)} {k : K} {v : V} (h : assocLookup l1 k = some v) :
    assocLookup (l1 ++ l2) k = some v := by
  induction l1 with
  | nil => simp [assocLookup] at h
  | cons p r ih =>
    obtain ⟨k2, v2⟩ := p
    by_cases hk : k2 = k
    · simp [assocLookup, hk] at h ⊢; exact h
    · simp [assocLookup, hk] at h ⊢; exact ih h

theorem assocLookup_append_none {K V : Type} [DecidableEq K]
    {l1 : List (K × V)} (l2 : List (K × V)) {k : K}
    (h : assocLookup l1 k = none) :
    assocLookup (l1 ++ l2) k = assocLookup l2 k := by
  induction l1 with
  | nil => simp
  | cons p r ih =>
    obtain ⟨k2, v2⟩ := p
    by_cases hk : k2 = k
    · simp [assocLookup, hk] at h
    · simp [assocLookup, hk] at h ⊢; exact ih h

theorem assocRemove_of_lookup_none {K V : Type} [DecidableEq K]
    {l : List (K × V)} {k : K} (h : assocLookup l k = none) :
    assocRemove l k = l := by
  induction l with
  | nil => rfl
  | cons p r ih =>
    obtain ⟨k2, v2⟩ := p
    by_cases hk : k2 = k
    · simp [assocLookup, hk] at h
    · simp [assocLookup, hk] at h
      simp [assocRemove, hk, ih h]

theorem assocLookup_remove_self {K V : Type} [DecidableEq K]
    (l : List (K × V)) (k : K) :
    assocLookup (assocRemove l k) k = none := by
  induction l with
  | nil => rfl
  | cons p r ih =>
    obtain ⟨k2, v2⟩ := p
    by_cases hk : k2 = k
    · simp [assocRemove, hk, ih]
    · simp [assocRemove, assocLookup, hk, ih]

theorem assocRemove_append {K V : Type} [DecidableEq K]
    (l1 l2 : List (K × V)) (k : K) :
    assocRemove (l1 ++ l2) k = assocRemove l1 k ++ assocRemove l2 k := by
  induction l1 with
  | nil => rfl
  | cons p r ih =>
    obtain ⟨k2, v2⟩ := p
    by_cases hk : k2 = k <;> simp [assocRemove, hk, ih]

theorem assocRemove_length_le {K V : Type} [DecidableEq K]
    (l : List (K × V)) (k : K) :
    (assocRemove l k).length ≤ l.length := by
  induction l with
  | nil => simp [assocRemove]
  | cons p r ih =>
    obtain ⟨k2, v2⟩ := p
    by_cases hk : k2 = k <;> simp [assocRemove, hk] <;> omega

theorem assocRemove_length_lt {K V : Type} [DecidableEq K]
    {l : List (K × V)} {k : K} {v : V} (h : assocLookup l k = some v) :
    (assocRemove l k).length + 1 ≤ l.length := by
  induction l with
  | nil => simp [assocLookup] at h
  | cons p r ih =>
    obtain ⟨k2, v2⟩ := p
    by_cases hk : k2 = k
    · simp [assocRemove, hk]
      have := assocRemove_length_le r k
      omega
    · simp [assocLookup, hk] at h
      simp [assocRemove, hk]
      have := ih h
      omega

theorem assocLookup_drop_none {K V : Type} [DecidableEq K]
    {l : List (K × V)} {k : K} (n : ℕ) (h : assocLookup l k = none) :
    assocLookup (l.drop n) k = none := by
  induction l generalizing n with
  | nil => simp [assocLookup]
  | cons p r ih =>
    obtain ⟨k2, v2⟩ := p
    by_cases hk : k2 = k
    · simp [assocLookup, hk] at h
    · simp [assocLookup, hk] at h
      cases n with
      | zero => simp [assocLookup, hk, h]
      | succ n => simpa using ih n h

/-- Looking up a key in a list ending with that key, when it occurs
nowhere earlier, after dropping any number of leading entries that is
at most the length of the earlier part. -/
theorem assocLookup_append_single_drop {K V : Type} [DecidableEq K]
    {l : List (K × V)} {k : K} (v : V) (n : ℕ)
    (h : assocLookup l k = none) (hn : n ≤ l.length) :
    assocLookup ((l ++ [(k, v)]).drop n) k = some v := by
  rw [List.drop_append_of_le_length hn]
  rw [assocLookup_append_none _ (assocLookup_drop_none n h)]
  simp [assocLookup]

/-- Looking up the key just written by a TTL insertion: the new entry
is bound most recently, so it survives any eviction the insertion
causes. -/
theorem fcLookup_fcInsert_self (es : List ((ℚ × ℚ) × (Option PyVal × ℕ)))
    (k : ℚ × ℚ) (v : Option PyVal) (now now2 : ℕ) :
    fcLookup (fcInsert es k v now) k now2 =
      if now2 < now + forecastTTL then some v else none := by
  unfold fcInsert fcLookup
  have hnone := assocLookup_remove_self
    (es.filter (fun e => decide (now < e.2.2 + forecastTTL))) k
  by_cases hbig : 100 <
      (assocRemove (es.filter (fun e => decide (now < e.2.2 + forecastTTL))) k
        ++ [(k, (v, now))]).length
  · rw [if_pos hbig]
    rw [assocLookup_append_single_drop (v, now) _ hnone (by simp at hbig ⊢)]
  · rw [if_neg hbig]
    rw [assocLookup_append_none _ hnone]
    simp [assocLookup]

/-! ### Claim C1 -/

/-- Claim C1, corrected.  When the forecast provider call fails, the
operation does not raise and returns the null forecast-unavailable
marker — but, contrary to the claim, the `@cached` wrapper stores that
`None` return in the forecast TTL cache like any other return value, so
an immediately following request (any time before the 600 second TTL
elapses) is a cache hit on the stored failure and issues no new
provider call. -/
theorem C1_theorem (co : Collab) (st : SysState) (now now2 : ℕ)
    (lat lon : ℚ) (e : PyErr)
    (hmiss : fcLookup st.fcCache (lat, lon) now = none)
    (hfail : co.http weather_url lat lon = .error e)
    (hexp : now2 < now + forecastTTL) :
    (get_forecast_ co st now lat lon).2 = none
  ∧ (get_forecast_ co st now lat lon).1.fcCalls = st.fcCalls + 1
  ∧ fcLookup (get_forecast_ co st now lat lon).1.fcCache (lat, lon) now2 = some none
  ∧ (get_forecast_ co ((get_forecast_ co st now lat lon).1) now2 lat lon).2 = none
  ∧ (get_forecast_ co ((get_forecast_ co st now lat lon).1) now2 lat lon).1.fcCalls
      = st.fcCalls + 1 := by
  have hstep : get_forecast_ co st now lat lon =
      ({ st with
          fcCache := fcInsert st.fcCache (lat, lon) none now,
          fcCalls := st.fcCalls + 1,
          fcUrls := st.fcUrls ++ [weather_url] }, none) := by
    unfold get_forecast_
    rw [hmiss, hfail]
  have hhit : fcLookup (fcInsert st.fcCache (lat, lon) none now) (lat, lon) now2
      = some none := by
    rw [fcLookup_fcInsert_self, if_pos hexp]
  refine ⟨by rw [hstep], by rw [hstep], ?_, ?_, ?_⟩
  · rw [hstep]; exact hhit
  · rw [hstep]; unfold get_forecast_; rw [hhit]
  · rw [hstep]; unfold get_forecast_; rw [hhit]

/-- Witness for C1_theorem at a concrete failing provider, empty cache,
coordinates 51 and 0, both calls at time 0. -/
theorem C1_witness :
    (get_forecast_ failCollab initState 0 51 0).2 = none
  ∧ (get_forecast_ failCollab initState 0 51 0).1.fcCalls = 1
  ∧ fcLookup (get_forecast_ failCollab initState 0 51 0).1.fcCache (51, 0) 0 = some none
  ∧ (get_forecast_ failCollab ((get_forecast_ failCollab initState 0 51 0).1) 0 51 0).2 = none
  ∧ (get_forecast_ failCollab ((get_forecast_ failCollab initState 0 51 0).1) 0 51 0).1.fcCalls
      = 1 :=
  C1_theorem failCollab initState 0 0 51 0 .providerError rfl rfl (by decide)

/-- Counterexample to claim C1 as stated: with a provider that fails,
the failure outcome is stored in the forecast cache (the lookup after
the first call finds the stored `None`), and the immediately following
request for the same coordinates is served from the cache — the number
of provider calls stays at one instead of the new provider call the
claim requires. -/
theorem C1_counterexample :
    fcLookup (get_forecast_ failCollab initState 0 51 0).1.fcCache (51, 0) 0 = some none
  ∧ (get_forecast_ failCollab ((get_forecast_ failCollab initState 0 51 0).1) 0 51 0).1.fcCalls
      = 1 :=
  ⟨rfl, rfl⟩

/-! ### Claim C4 -/

/-- Claim C4, corrected.  The source has no routing at all: for every
forecast request, a cache miss issues exactly one HTTP request, always
to the single provider URL `weather_url` (api.met.no), and a hit issues
none — the called provider never depends on the location or on any UK
flag, and there is no second, UK-specific provider.  This theorem
records what the code does: the URL log after any call either is
unchanged (hit) or grew by exactly the one worldwide provider URL
(miss). -/
theorem C4_theorem (co : Collab) (st : SysState) (now : ℕ) (lat lon : ℚ) :
    (get_forecast_ co st now lat lon).1.fcUrls = st.fcUrls
  ∨ (get_forecast_ co st now lat lon).1.fcUrls = st.fcUrls ++ [weather_url] := by
  unfold get_forecast_
  cases h : fcLookup st.fcCache (lat, lon) now
  · right; rfl
  · left; rfl

/-- Counterexample to claim C4 as stated: the claim presupposes a
UK-specific provider and a worldwide provider, distinct from each
other, with the one called selected by the inUK flag.  Taking a
request at London coordinates (for which the spec would derive inUK =
true) and one at Tokyo coordinates (inUK = false), the code issues its
one provider call to the same URL in both cases, so no pair of
distinct provider URLs can describe the two calls. -/
theorem C4_counterexample :
    ¬ ∃ ukUrl wwUrl : Str, ukUrl ≠ wwUrl
      ∧ (get_forecast_ okCollab initState 0 (5151/100) (-128/1000)).1.fcUrls = [ukUrl]
      ∧ (get_forecast_ okCollab initState 0 (356895/10000) (1396917/10000)).1.fcUrls
          = [wwUrl] := by
  rintro ⟨u1, u2, hne, h1, h2⟩
  have e1 : (get_forecast_ okCollab initState 0 (5151/100) (-128/1000)).1.fcUrls
      = [weather_url] := rfl
  have e2 : (get_forecast_ okCollab initState 0 (356895/10000) (1396917/10000)).1.fcUrls
      = [weather_url] := rfl
  rw [e1] at h1
  rw [e2] at h2
  simp only [List.cons.injEq, and_true] at h1 h2
  exact hne (h1 ▸ h2 ▸ rfl)

/-! ### Claim C5 -/

/-- Claim C5, corrected.  The geocode cache key is `place.lower()`:
lowercased but not trimmed.  Any two place values that lower to the
same key — in particular names differing only in letter case — hit the
same entry: after a first successful resolve, the second resolve
returns the identical cached record and leaves the state (including
the geocode provider call counter) unchanged.  Names differing in
surrounding whitespace lower to different keys and do not share an
entry (see the counterexample). -/
theorem C5_theorem (co : Collab) (st st1 : SysState) (p1 p2 : PyVal)
    (key : Str) (loc : PyDotDict)
    (h1 : pyLowerV p1 = .ok key) (h2 : pyLowerV p2 = .ok key)
    (hfirst : geocode_place co st p1 = (st1, .ok loc)) :
    geocode_place co st1 p2 = (st1, .ok loc) := by
  have hcached : assocLookup st1.geoCache key = some loc := by
    unfold geocode_place at hfirst
    rw [h1] at hfirst
    dsimp only at hfirst
    cases hc : assocLookup st.geoCache key with
    | some l =>
      rw [hc] at hfirst
      simp only [Prod.mk.injEq, Except.ok.injEq] at hfirst
      obtain ⟨hst, hloc⟩ := hfirst
      subst hst
      rw [hc, hloc]
    | none =>
      rw [hc] at hfirst
      cases hg : co.geocode p1 with
      | error e =>
        rw [hg] at hfirst
        simp at hfirst
      | ok raw =>
        rw [hg] at hfirst
        simp only [Prod.mk.injEq, Except.ok.injEq] at hfirst
        obtain ⟨hst, hloc⟩ := hfirst
        rw [← hst]
        simp only
        rw [assocLookup_append_none _ (assocLookup_remove_self _ _)]
        simp [assocLookup, hloc]
  simp only [geocode_place, h2, hcached]

/-- Tokyo, capitalised as a user would type it. -/
def tokyoS : Str := "Tokyo".data
/-- Tokyo, fully upper case. -/
def tokyoUpperS : Str := "TOKYO".data
/-- Tokyo, lower case: the cache key of both spellings. -/
def tokyoLowerS : Str := "tokyo".data
/-- Tokyo with leading whitespace. -/
def tokyoPadS : Str := " Tokyo".data

/-- Witness for C5_theorem: resolving Tokyo and then TOKYO — same key
after lowercasing — returns the identical record from the cache with no
state change. -/
theorem C5_witness :
    geocode_place okCollab
      (⟨[(tokyoLowerS, ⟨[], []⟩)], 1, [], 0, [], 0, []⟩ : SysState)
      (.vstr tokyoUpperS)
    = (⟨[(tokyoLowerS, ⟨[], []⟩)], 1, [], 0, [], 0, []⟩, .ok ⟨[], []⟩) :=
  C5_theorem okCollab initState _ (.vstr tokyoS) (.vstr tokyoUpperS)
    tokyoLowerS ⟨[], []⟩ rfl rfl rfl

/-- Counterexample to claim C5 as stated: the key is not trimmed, so
after resolving Tokyo (one provider call), resolving the same name with
a leading space is a cache miss and issues a second provider call,
where the claim requires zero additional calls. -/
theorem C5_counterexample :
    (geocode_place okCollab initState (.vstr tokyoS)).1.geoCalls = 1
  ∧ (geocode_place okCollab
      (geocode_place okCollab initState (.vstr tokyoS)).1
      (.vstr tokyoPadS)).1.geoCalls = 2 :=
  ⟨rfl, rfl⟩

/-! ### Claim C6 -/

/-- Claim C6, corrected.  A parsed message matching neither the place
shape nor the lat/lon shape is answered without invoking the resolution
pipeline or any provider — the state, including every call counter, is
returned unchanged — but the envelope published is the literal
unknown-request dict with only topic and msg fields: it has no
errorKind field (and the string BAD_REQUEST appears nowhere in the
source). -/
theorem C6_theorem (co : Collab) (st : SysState) (now : ℕ) (req : PyVal)
    (hp : pyHasattr req placeK = false)
    (hl : pyHasattr req latK = false ∨ pyHasattr req lonK = false) :
    on_message co st now (some req) = (st, .ok [unknownEnvelope])
  ∧ assocLookup unknownEnvelope errorKindK = none := by
  have hand : (pyHasattr req latK && pyHasattr req lonK) = false := by
    rcases hl with h | h <;> simp [h]
  constructor
  · simp only [on_message, hp, hand]
    rfl
  · rfl

/-- Witness for C6_theorem at the concrete malformed message of the
specification scenario, a JSON object with a single field foo. -/
theorem C6_witness :
    on_message failCollab initState 0
      (some (.vdict [("foo".data, .vnum 1)])) = (initState, .ok [unknownEnvelope])
  ∧ assocLookup unknownEnvelope errorKindK = none :=
  C6_theorem failCollab initState 0 (.vdict [("foo".data, .vnum 1)])
    rfl (Or.inl rfl)

/-- Counterexample to claim C6 as stated: for the malformed message
with a single field foo, the published envelope contains no errorKind
field at all (so in particular not BAD_REQUEST), while the claim
requires an envelope whose errorKind field is BAD_REQUEST.  The state
is unchanged, so the no-provider-invoked half of the claim does
hold. -/
theorem C6_counterexample :
    (on_message failCollab initState 0
        (some (.vdict [("foo".data, .vnum 1)]))).2
      = .ok [[(topicK, .vstr errorTopicS), (msgK, .vstr unknownMsgS)]]
  ∧ assocLookup
      ([(topicK, .vstr errorTopicS), (msgK, .vstr unknownMsgS)] : Envelope)
      errorKindK = none
  ∧ (on_message failCollab initState 0
        (some (.vdict [("foo".data, .vnum 1)]))).1 = initState :=
  ⟨rfl, rfl, rfl⟩

/-! ### Claim C7 -/

/-- Claim C7, corrected.  For every parsed inbound message the handler
publishes at most one envelope, and exactly one whenever it does not
raise; but it can raise after a successful resolution — the coordinate
attribute reads, the float conversions and the timezone lookup run
outside any try block — in which case nothing at all is published.
This theorem establishes the exact dichotomy, quantified over every
collaborator behaviour, cache state and message. -/
theorem C7_theorem (co : Collab) (st : SysState) (now : ℕ)
    (payload : Option PyVal) :
    (∃ e, (on_message co st now payload).2 = .error e)
  ∨ (∃ env, (on_message co st now payload).2 = .ok [env]) := by
  cases payload with
  | none => exact Or.inr ⟨parseErrEnvelope, rfl⟩
  | some req =>
    by_cases hp : pyHasattr req placeK = true
    · cases hg : nsGetattr req placeK with
      | none => exact Or.inl ⟨.attributeError, by simp [on_message, hp, hg]⟩
      | some p =>
        rcases hpr : place_request co st now p with ⟨st2, r⟩
        cases r with
        | error e => exact Or.inl ⟨e, by simp [on_message, hp, hg, hpr]⟩
        | ok env => exact Or.inr ⟨env, by simp [on_message, hp, hg, hpr]⟩
    · have hp2 : pyHasattr req placeK = false := by simpa using hp
      by_cases hll : (pyHasattr req latK && pyHasattr req lonK) = true
      · cases hla : nsGetattr req latK with
        | none =>
          exact Or.inl ⟨.attributeError, by simp [on_message, hp2, hll, hla]⟩
        | some la =>
          cases hlo : nsGetattr req lonK with
          | none =>
            exact Or.inl ⟨.attributeError,
              by simp [on_message, hp2, hll, hla, hlo]⟩
          | some lo =>
            rcases hpt : point_request co st now la lo with ⟨st2, r⟩
            cases r with
            | error e =>
              exact Or.inl ⟨e, by simp [on_message, hp2, hll, hla, hlo, hpt]⟩
            | ok env =>
              exact Or.inr ⟨env, by simp [on_message, hp2, hll, hla, hlo, hpt]⟩
      · have hll2 : (pyHasattr req latK && pyHasattr req lonK) = false := by
          simpa using hll
        exact Or.inr ⟨unknownEnvelope, by simp [on_message, hp2, hll2]⟩

/-- A seeded place name, as the config file custom locations seed the
geocode cache. -/
def homeS : Str := "home".data

/-- Counterexample to claim C7 as stated: with the geocode cache
holding a record without a lat entry under the key home (exactly what
a malformed custom location from the config seeds), the parsed message
with place home resolves from the cache, then the uncaught
`float(location.lat)` raises AttributeError out of the handler: the
handler raises and publishes no envelope, where the claim requires
exactly one published envelope and no uncaught exception. -/
theorem C7_counterexample :
    on_message failCollab (⟨[(homeS, ⟨[], []⟩)], 0, [], 0, [], 0, []⟩ : SysState)
      0 (some (.vdict [(placeK, .vstr homeS)]))
    = (⟨[(homeS, ⟨[], []⟩)], 0, [], 0, [], 0, []⟩, .error .attributeError) :=
  rfl

/-! ### Claims C2, C3, C10: reverse-geocode normalization -/

/-- Every successful normalization leaves the dict entries exactly the
raw provider payload: either the address breakdown was absent and the
object is untouched, or the three-way join succeeded and the joined
label was stored as an instance attribute only. -/
theorem normalizeRev_ok_shape (raw : List (Str × PyVal)) (loc : PyDotDict)
    (h : normalizeRev raw = .ok loc) :
    (hasKey raw addressK = false ∧ loc = ⟨raw, []⟩)
  ∨ (hasKey raw addressK = true ∧ ∃ dn : Str, loc = ⟨raw, [(dnK, .vstr dn)]⟩) := by
  by_cases haddr : hasKey raw addressK = true
  · right
    refine ⟨haddr, ?_⟩
    rw [normalizeRev, if_pos haddr] at h
    cases ha : pyGetattr ⟨raw, []⟩ addressK with
    | error e => rw [ha] at h; simp at h
    | ok address =>
      rw [ha] at h
      dsimp only at h
      cases hc : pyContains address suburbK with
      | error e => rw [hc] at h; simp at h
      | ok hasSub =>
        rw [hc] at h
        dsimp only at h
        cases hsb : (if hasSub then valGetattr address suburbK
            else Except.ok PyVal.vnone) with
        | error e => rw [hsb] at h; simp at h
        | ok suburb =>
          rw [hsb] at h
          dsimp only at h
          cases hct : valGetattr address cityK with
          | error e => rw [hct] at h; simp at h
          | ok city =>
            rw [hct] at h
            dsimp only at h
            cases hst : valGetattr address stateK with
            | error e => rw [hst] at h; simp at h
            | ok state =>
              rw [hst] at h
              dsimp only at h
              cases hj : pyJoin commaSep [suburb, city, state] with
              | error e => rw [hj] at h; simp at h
              | ok dn =>
                rw [hj] at h
                simp only [Except.ok.injEq] at h
                exact ⟨dn, by rw [← h]; rfl⟩
  · left
    have haddr2 : hasKey raw addressK = false := by simpa using haddr
    refine ⟨haddr2, ?_⟩
    rw [normalizeRev, if_neg (by simp [haddr2])] at h
    simp only [Except.ok.injEq] at h
    exact h.symm

/-- Claim C2, corrected.  When the provider response has no address
breakdown at all, the normalization indeed does not raise: the record
keeps the raw payload unchanged and its display name is the provider
default label.  But when an address breakdown is present and the city
(or state) field is missing, the unconditional `address.city` attribute
read raises AttributeError — the request then fails with a
GEOCODE_ERROR envelope instead of falling back (see the
counterexample). -/
theorem C2_theorem (raw : List (Str × PyVal)) (s : Str)
    (hnoaddr : hasKey raw addressK = false)
    (hdn : assocLookup raw dnK = some (.vstr s)) :
    normalizeRev raw = .ok ⟨raw, []⟩
  ∧ pyGetattr ⟨raw, []⟩ dnK = .ok (.vstr s) := by
  constructor
  · rw [normalizeRev, if_neg (by simp [hnoaddr])]
  · simp [pyGetattr, assocLookup, dotGetattr, hdn, wrapIfDict]

/-- The provider default display label used in the examples. -/
def providerLabelS : Str :=
  "123 Princes Street, Edinburgh EH2 4AD, United Kingdom".data
/-- Example city. -/
def edinburghS : Str := "Edinburgh".data
/-- Example state. -/
def scotlandS : Str := "Scotland".data
/-- Example suburb. -/
def newTownS : Str := "New Town".data
/-- The three-way join produced from the full example address. -/
def joinedS : Str := "New Town, Edinburgh, Scotland".data

/-- Witness for C2_theorem: a provider payload with only a default
display label and no address breakdown normalizes unchanged. -/
theorem C2_witness :
    normalizeRev [(dnK, .vstr providerLabelS)]
      = .ok ⟨[(dnK, .vstr providerLabelS)], []⟩
  ∧ pyGetattr ⟨[(dnK, .vstr providerLabelS)], []⟩ dnK
      = .ok (.vstr providerLabelS) :=
  C2_theorem [(dnK, .vstr providerLabelS)] providerLabelS rfl rfl

/-- A reverse-geocode payload whose address breakdown lacks city. -/
def stateOnlyRaw : List (Str × PyVal) :=
  [(dnK, .vstr providerLabelS), (addressK, .vdict [(stateK, .vstr scotlandS)])]

/-- A reverse geocoder returning the city-less payload. -/
def cexCollab : Collab :=
  ⟨fun _ => .error .providerError, fun _ _ => .ok stateOnlyRaw,
   fun _ _ => .error .providerError, fun _ _ _ => .error .providerError⟩

/-- Counterexample to claim C2 as stated: on a provider response whose
address breakdown is present but has no city field, the normalization
raises AttributeError rather than falling back to the provider label,
and the point request for such a response fails with a GEOCODE_ERROR
envelope. -/
theorem C2_counterexample :
    normalizeRev stateOnlyRaw = .error .attributeError
  ∧ (point_request cexCollab initState 0 (.vnum 0) (.vnum 0)).2
      = .ok (errEnvelope geocodeErrorS failedRevGeocodeMsgS) := by
  have hnorm : normalizeRev stateOnlyRaw = .error .attributeError := rfl
  have hkey : revKeyV (.vnum 0) (.vnum 0) = .ok ((0 : ℤ), (0 : ℤ)) := by
    norm_num [revKeyV]
  refine ⟨hnorm, ?_⟩
  simp [point_request, rev_geocode, hkey, assocLookup, cexCollab, hnorm, initState]

/-- A reverse-geocode payload with city and state but no suburb: the
exact shape the specification scenario city, state is about. -/
def noSuburbRaw : List (Str × PyVal) :=
  [(dnK, .vstr providerLabelS),
   (addressK, .vdict [(cityK, .vstr edinburghS), (stateK, .vstr scotlandS)])]

/-- Claim C3, a code bug.  The claim (and the spec) requires the
display name to join only the present fields, so an address with city
and state but no suburb must yield city, state and succeed.  The code
sets suburb to None in that case and still passes it to the three-way
", ".join, which raises TypeError on the None item — the conditional
handling of a missing suburb a few lines above shows the crash is a
slip, not intent.  Evaluating the embedded code at the failing input:
the normalization raises TypeError; with every field present the join
does produce the comma-joined present fields, confirming the intended
reading. -/
theorem C3_theorem :
    normalizeRev noSuburbRaw = .error .typeError
  ∧ normalizeRev
      [(dnK, .vstr providerLabelS),
       (addressK, .vdict [(suburbK, .vstr newTownS), (cityK, .vstr edinburghS),
          (stateK, .vstr scotlandS)])]
    = .ok ⟨[(dnK, .vstr providerLabelS),
       (addressK, .vdict [(suburbK, .vstr newTownS), (cityK, .vstr edinburghS),
          (stateK, .vstr scotlandS)])], [(dnK, .vstr joinedS)]⟩ :=
  ⟨rfl, rfl⟩

/-- Claim C10, confirmed.  Whatever successful normalization does, the
dict entries of the resulting location are exactly the raw provider
payload; when an address breakdown was present the synthesized display
name lives only in the instance attributes; and the location dict
serialized into a success envelope is the raw payload — so its
display_name entry is the provider original, not the synthesized
attribute. -/
theorem C10_theorem (raw : List (Str × PyVal)) (loc : PyDotDict)
    (h : normalizeRev raw = .ok loc) :
    loc.entries = raw
  ∧ (hasKey raw addressK = true →
      ∃ dn : Str, assocLookup loc.attrs dnK = some (.vstr dn))
  ∧ (∀ t tzv fc,
      assocLookup (successEnvelope t loc tzv fc) locationK = some (.vdict raw)) := by
  have hsh := normalizeRev_ok_shape raw loc h
  have hent : loc.entries = raw := by
    rcases hsh with ⟨-, rfl⟩ | ⟨-, dn, rfl⟩ <;> rfl
  refine ⟨hent, ?_, ?_⟩
  · intro haddr
    rcases hsh with ⟨hf, -⟩ | ⟨-, dn, rfl⟩
    · rw [haddr] at hf; cases hf
    · exact ⟨dn, by simp [assocLookup]⟩
  · intro t tzv fc
    have h1 : topicK ≠ locationK := by decide
    simp [successEnvelope, assocLookup, h1, hent]

/-- The full example payload: address with suburb, city and state. -/
def fullRaw : List (Str × PyVal) :=
  [(dnK, .vstr providerLabelS),
   (addressK, .vdict [(suburbK, .vstr newTownS), (cityK, .vstr edinburghS),
      (stateK, .vstr scotlandS)])]

/-- Witness for C10_theorem at the full example payload: the location
serialized into a point_request success envelope is the raw payload,
whose display_name entry is the provider original label, which differs
from the synthesized join. -/
theorem C10_witness :
    assocLookup
      (successEnvelope pointTopicS ⟨fullRaw, [(dnK, .vstr joinedS)]⟩ none none)
      locationK = some (.vdict fullRaw)
  ∧ assocLookup fullRaw dnK = some (.vstr providerLabelS)
  ∧ providerLabelS ≠ joinedS :=
  ⟨(C10_theorem fullRaw ⟨fullRaw, [(dnK, .vstr joinedS)]⟩ rfl).2.2 pointTopicS none none,
   rfl, by decide⟩

/-! ### Claim C9: DotDict attribute access -/

theorem strStartsWith_iff (k p : Str) :
    strStartsWith k p = true ↔ ∃ t, k = p ++ t := by
  induction p generalizing k with
  | nil =>
    constructor
    · intro _; exact ⟨k, rfl⟩
    · intro _; cases k <;> rfl
  | cons d p ih =>
    cases k with
    | nil =>
      constructor
      · intro hcon; simp [strStartsWith] at hcon
      · rintro ⟨t, ht⟩; simp at ht
    | cons c k2 =>
      constructor
      · intro hsw
        rw [strStartsWith, Bool.and_eq_true, beq_iff_eq] at hsw
        obtain ⟨rfl, hsw⟩ := hsw
        obtain ⟨t, rfl⟩ := (ih k2).1 hsw
        exact ⟨t, rfl⟩
      · rintro ⟨t, ht⟩
        simp only [List.cons_append, List.cons.injEq] at ht
        obtain ⟨rfl, rfl⟩ := ht
        rw [strStartsWith, Bool.and_eq_true, beq_iff_eq]
        exact ⟨rfl, (ih _).2 ⟨t, rfl⟩⟩

theorem dotSubkeys_cons (k : Str) (v : PyVal) (r : List (Str × PyVal))
    (n : Str) :
    dotSubkeys ((k, v) :: r) n =
      if strStartsWith k (n ++ ['.']) then
        (k.drop (n ++ ['.']).length, v) :: dotSubkeys r n
      else dotSubkeys r n := by
  by_cases hp : strStartsWith k (n ++ ['.']) = true <;>
    simp [dotSubkeys, List.filter_cons, hp]

/-- The collected subkey dictionary answers exactly the lookups of the
original dictionary at the dotted keys. -/
theorem dotSubkeys_lookup (m : List (Str × PyVal)) (n s : Str) :
    assocLookup (dotSubkeys m n) s = assocLookup m (n ++ '.' :: s) := by
  induction m with
  | nil => rfl
  | cons p r ih =>
    obtain ⟨k, v⟩ := p
    rw [dotSubkeys_cons]
    by_cases hp : strStartsWith k (n ++ ['.']) = true
    · rw [if_pos hp]
      obtain ⟨t, rfl⟩ := (strStartsWith_iff k (n ++ ['.'])).1 hp
      have hd : ((n ++ ['.']) ++ t).drop (n ++ ['.']).length = t :=
        List.drop_left _ _
      have hkeq : ((n ++ ['.']) ++ t = n ++ '.' :: s) ↔ t = s := by
        constructor
        · intro h
          have h2 : n ++ '.' :: t = n ++ '.' :: s := by rw [← h]; simp
          have h3 := List.append_cancel_left h2
          injection h3 with h4 h5
        · rintro rfl; simp
      simp only [assocLookup, hd]
      by_cases hts : t = s
      · rw [if_pos hts, if_pos (hkeq.2 hts)]
      · rw [if_neg hts, if_neg (fun hcon => hts (hkeq.1 hcon))]
        exact ih
    · rw [if_neg hp]
      have hne : ¬ (k = n ++ '.' :: s) := by
        intro hcon
        apply hp
        apply (strStartsWith_iff k (n ++ ['.'])).2
        exact ⟨s, by rw [hcon]; simp⟩
      rw [ih]
      simp only [assocLookup]
      rw [if_neg hne]

/-- Claim C9, confirmed.  DotDict attribute access: a present key is
served with plain dict values re-wrapped as DotDict; otherwise, when
dotted-prefix keys exist, a DotDict mapping each suffix after the dot
to its value is returned — so an entry stored under a dotted key a.b is
reachable as attribute a then attribute b; otherwise AttributeError is
raised. -/
theorem C9_theorem (m : List (Str × PyVal)) (n : Str) :
    (∀ v, assocLookup m n = some v → dotGetattr m n = .ok (wrapIfDict v))
  ∧ (assocLookup m n = none → dotSubkeys m n ≠ [] →
      dotGetattr m n = .ok (.vdot (dotSubkeys m n)))
  ∧ (assocLookup m n = none → dotSubkeys m n = [] →
      dotGetattr m n = .error .attributeError)
  ∧ (∀ s : Str, assocLookup (dotSubkeys m n) s = assocLookup m (n ++ '.' :: s))
  ∧ (∀ (s : Str) (v : PyVal), assocLookup m n = none →
      assocLookup m (n ++ '.' :: s) = some v →
      ∃ sub, dotGetattr m n = .ok (.vdot sub)
        ∧ dotGetattr sub s = .ok (wrapIfDict v)) := by
  refine ⟨?_, ?_, ?_, dotSubkeys_lookup m n, ?_⟩
  · intro v hv
    simp [dotGetattr, hv]
  · intro h0 hne
    cases hsk : dotSubkeys m n with
    | nil => exact absurd hsk hne
    | cons a l => simp [dotGetattr, h0, hsk]
  · intro h0 h1
    simp [dotGetattr, h0, h1]
  · intro s v h0 hv
    have hsk : assocLookup (dotSubkeys m n) s = some v := by
      rw [dotSubkeys_lookup m n s]; exact hv
    refine ⟨dotSubkeys m n, ?_, ?_⟩
    · cases hd : dotSubkeys m n with
      | nil => rw [hd] at hsk; simp [assocLookup] at hsk
      | cons a l => simp [dotGetattr, h0, hd]
    · simp [dotGetattr, hsk]

/-- Example key foo. -/
def fooK : Str := "foo".data
/-- Example key bar. -/
def barK : Str := "bar".data
/-- Example key baz. -/
def bazK : Str := "baz".data
/-- Example key qux, absent from the example dict. -/
def quxK : Str := "qux".data
/-- The example dict of the DotDict docstring: a plain key and a dotted
key. -/
def exampleDict : List (Str × PyVal) :=
  [(fooK, .vnum 3), ("bar.baz".data, .vnum 4)]

/-- Witness for C9_theorem on the docstring example: a present key is
served, the dotted key is reachable in two attribute steps, and a
missing name raises AttributeError. -/
theorem C9_witness :
    dotGetattr exampleDict fooK = .ok (.vnum 3)
  ∧ dotGetattr exampleDict quxK = .error .attributeError
  ∧ (∃ sub, dotGetattr exampleDict barK = .ok (.vdot sub)
      ∧ dotGetattr sub bazK = .ok (.vnum 4)) :=
  ⟨(C9_theorem exampleDict fooK).1 (.vnum 3) rfl,
   (C9_theorem exampleDict quxK).2.2.1 rfl rfl,
   (C9_theorem exampleDict barK).2.2.2.2 bazK (.vnum 4) rfl rfl⟩

/-! ### Claim C8: the reverse-geocode LRU cache -/

/-- An LRU insertion never leaves more than the fixed capacity of 1000
entries. -/
theorem lruPut_length_le (es : List ((ℤ × ℤ) × PyDotDict)) (k : ℤ × ℤ)
    (v : PyDotDict) : (lruPut es k v).length ≤ 1000 := by
  unfold lruPut
  by_cases h : 1000 < (assocRemove es k ++ [(k, v)]).length
  · rw [if_pos h]
    simp only [List.length_drop]
    omega
  · rw [if_neg h]
    omega

/-- Re-binding a present key most recently used does not grow the
cache. -/
theorem touch_length_le {es : List ((ℤ × ℤ) × PyDotDict)} {k : ℤ × ℤ}
    {v v2 : PyDotDict} (h : assocLookup es k = some v) :
    (assocRemove es k ++ [(k, v2)]).length ≤ es.length := by
  have := assocRemove_length_lt h
  simp only [List.length_append, List.length_cons, List.length_nil]
  omega

/-- The bound conjunct of claim C8 in isolation: whatever one
rev_geocode call does, a cache within capacity stays within
capacity. -/
theorem rev_geocode_length_le (co : Collab) (st : SysState) (a b : PyVal)
    (hle : st.revCache.length ≤ 1000) :
    (rev_geocode co st a b).1.revCache.length ≤ 1000 := by
  unfold rev_geocode
  cases hk : revKeyV a b with
  | error e => exact hle
  | ok k =>
    dsimp only
    cases hl : assocLookup st.revCache k with
    | some loc =>
      exact le_trans (touch_length_le hl) hle
    | none =>
      dsimp only
      cases hr : co.reverse a b with
      | error e => exact hle
      | ok raw =>
        dsimp only
        cases hn : normalizeRev raw with
        | error e => exact hle
        | ok loc =>
          dsimp only
          cases hl2 : assocLookup (lruPut st.revCache k loc) k with
          | some v2 =>
            exact le_trans (touch_length_le hl2) (lruPut_length_le _ _ _)
          | none => exact hle

/-- The location used to fill the example cache. -/
def emptyLoc : PyDotDict := ⟨[], []⟩

/-- The i-th example cache entry: key (i, 0) in rounded thousandths. -/
def rEntry (i : ℕ) : (ℤ × ℤ) × PyDotDict := (((i : ℤ), 0), emptyLoc)

/-- n consecutive example entries starting at key index a. -/
def rList (a n : ℕ) : List ((ℤ × ℤ) × PyDotDict) :=
  (List.range n).map (fun i => rEntry (a + i))

theorem rList_succ (a n : ℕ) : rList a (n + 1) = rEntry a :: rList (a + 1) n := by
  unfold rList
  rw [List.range_succ_eq_map, List.map_cons, List.map_map]
  congr 1
  apply List.map_congr_left
  intro i _
  simp only [Function.comp_apply]
  congr 1
  omega

theorem rList_lookup_none (a n : ℕ) (k : ℤ × ℤ)
    (h : ∀ i, i < n → k ≠ (((a + i : ℕ) : ℤ), 0)) :
    assocLookup (rList a n) k = none := by
  induction n generalizing a with
  | zero => rfl
  | succ n ih =>
    rw [rList_succ]
    have hka : ¬ ((((a : ℕ) : ℤ), (0 : ℤ)) = k) := by
      intro hcon
      apply h 0 (by omega)
      rw [← hcon]
      norm_num
    simp only [assocLookup, rEntry]
    rw [if_neg hka]
    apply ih
    intro i hi
    have heq : a + 1 + i = a + (i + 1) := by omega
    rw [heq]
    exact h (i + 1) (by omega)

/-- Claim C8, confirmed.  With the reverse-geocode LRU cache at its
capacity of 1000 entries — k0 least recently used, then k1, then rest —
the following scenario holds.  (1) A lookup hit on k0 returns the
cached record and moves k0 to most recently used, leaving k1 the
least recently used.  (2) Inserting a 1001st distinct key kf (a miss,
one provider call) evicts exactly k1, the least recently used entry:
the new cache again has exactly 1000 entries, k1 is gone, k0 and the
rest survive.  (3) A subsequent resolve for the evicted key k1 is a
miss and triggers a new provider call.  Finally, any single
rev_geocode call keeps a within-capacity cache within the 1000-entry
capacity. -/
theorem C8_theorem (co : Collab) (st : SysState)
    (k0 k1 kf : ℤ × ℤ) (v0 v1 locf : PyDotDict)
    (rest : List ((ℤ × ℤ) × PyDotDict))
    (a0 b0 af bf a1 b1 : PyVal) (rawf : List (Str × PyVal))
    (hms : st.revCache = (k0, v0) :: (k1, v1) :: rest)
    (hlen : rest.length = 998)
    (hk01 : k0 ≠ k1)
    (h0r : assocLookup rest k0 = none)
    (h1r : assocLookup rest k1 = none)
    (hf0 : kf ≠ k0) (hf1 : kf ≠ k1)
    (hfr : assocLookup rest kf = none)
    (hka : revKeyV a0 b0 = .ok k0)
    (hkb : revKeyV a1 b1 = .ok k1)
    (hkf : revKeyV af bf = .ok kf)
    (hrev : co.reverse af bf = .ok rawf)
    (hnorm : normalizeRev rawf = .ok locf) :
    rev_geocode co st a0 b0
      = ({ st with revCache := (k1, v1) :: (rest ++ [(k0, v0)]) }, .ok v0)
  ∧ rev_geocode co { st with revCache := (k1, v1) :: (rest ++ [(k0, v0)]) } af bf
      = ({ st with revCache := rest ++ [(k0, v0), (kf, locf)],
                   revCalls := st.revCalls + 1 }, .ok locf)
  ∧ (rest ++ [(k0, v0), (kf, locf)]).length = 1000
  ∧ assocLookup (rest ++ [(k0, v0), (kf, locf)]) k1 = none
  ∧ assocLookup (rest ++ [(k0, v0), (kf, locf)]) k0 = some v0
  ∧ (rev_geocode co
       { st with revCache := rest ++ [(k0, v0), (kf, locf)],
                 revCalls := st.revCalls + 1 } a1 b1).1.revCalls
      = st.revCalls + 2
  ∧ (∀ (st2 : SysState) (a b : PyVal), st2.revCache.length ≤ 1000 →
      (rev_geocode co st2 a b).1.revCache.length ≤ 1000) := by
  have h10 : k1 ≠ k0 := Ne.symm hk01
  have h0f : k0 ≠ kf := Ne.symm hf0
  have h1f : k1 ≠ kf := Ne.symm hf1
  have hlook0 : assocLookup st.revCache k0 = some v0 := by
    rw [hms]; simp [assocLookup]
  have hrem0 : assocRemove st.revCache k0 = (k1, v1) :: rest := by
    rw [hms]
    simp [assocRemove, h10, assocRemove_of_lookup_none h0r]
  have step1 : rev_geocode co st a0 b0
      = ({ st with revCache := (k1, v1) :: (rest ++ [(k0, v0)]) }, .ok v0) := by
    unfold rev_geocode
    rw [hka]
    dsimp only
    rw [hlook0]
    dsimp only
    rw [hrem0]
    simp
  have hlookE1f : assocLookup ((k1, v1) :: (rest ++ [(k0, v0)])) kf = none := by
    simp only [assocLookup]
    rw [if_neg h1f, assocLookup_append_none _ hfr]
    simp [assocLookup, h0f]
  have hremE1f : assocRemove ((k1, v1) :: (rest ++ [(k0, v0)])) kf
      = (k1, v1) :: (rest ++ [(k0, v0)]) :=
    assocRemove_of_lookup_none hlookE1f
  have hput : lruPut ((k1, v1) :: (rest ++ [(k0, v0)])) kf locf
      = rest ++ [(k0, v0), (kf, locf)] := by
    simp [lruPut, hremE1f, hlen]
  have hlookE2f : assocLookup (rest ++ [(k0, v0), (kf, locf)]) kf = some locf := by
    rw [assocLookup_append_none _ hfr]
    simp [assocLookup, h0f]
  have hremE2f : assocRemove (rest ++ [(k0, v0), (kf, locf)]) kf
      = rest ++ [(k0, v0)] := by
    rw [assocRemove_append, assocRemove_of_lookup_none hfr]
    simp [assocRemove, h0f]
  have step2 : rev_geocode co
        { st with revCache := (k1, v1) :: (rest ++ [(k0, v0)]) } af bf
      = ({ st with revCache := rest ++ [(k0, v0), (kf, locf)],
                   revCalls := st.revCalls + 1 }, .ok locf) := by
    simp only [rev_geocode, hkf, hlookE1f, hrev, hnorm, hput, hlookE2f, hremE2f]
    simp [List.append_assoc]
  have hlookE2b : assocLookup (rest ++ [(k0, v0), (kf, locf)]) k1 = none := by
    rw [assocLookup_append_none _ h1r]
    simp [assocLookup, hk01, hf1]
  have hlookE2a : assocLookup (rest ++ [(k0, v0), (kf, locf)]) k0 = some v0 := by
    rw [assocLookup_append_none _ h0r]
    simp [assocLookup]
  have step3 : (rev_geocode co
        { st with revCache := rest ++ [(k0, v0), (kf, locf)],
                  revCalls := st.revCalls + 1 } a1 b1).1.revCalls
      = st.revCalls + 2 := by
    simp only [rev_geocode, hkb, hlookE2b]
    cases hr2 : co.reverse a1 b1 with
    | error e => dsimp only
    | ok raw2 =>
      dsimp only
      cases hn2 : normalizeRev raw2 with
      | error e => dsimp only
      | ok loc2 =>
        dsimp only
        cases hl3 : assocLookup
            (lruPut (rest ++ [(k0, v0), (kf, locf)]) k1 loc2) k1 with
        | some v3 => dsimp only
        | none => dsimp only
  refine ⟨step1, step2, by simp [hlen], hlookE2b, hlookE2a, step3, ?_⟩
  intro st2 a b hle
  exact rev_geocode_length_le co st2 a b hle

/-- A concrete state whose reverse-geocode cache is at capacity: 1000
entries with keys (0,0), (1,0), (2,0) ... (999,0), least recently used
first. -/
def fullCacheState : SysState :=
  ⟨[], 0, rEntry 0 :: rEntry 1 :: rList 2 998, 0, [], 0, []⟩

set_option maxRecDepth 8000 in
/-- Witness for C8_theorem on the concrete full cache: after touching
key (0,0) (coordinates 0, 0) and inserting the fresh key (1000,0)
(coordinates 1, 0), the evicted key is exactly (1,0) and the cache
still has 1000 entries; resolving coordinates 0.001, 0 (key (1,0))
afterwards increments the provider call counter to 2. -/
theorem C8_witness :
    assocLookup
      (rList 2 998 ++ [((((0:ℤ), (0:ℤ))), emptyLoc), ((((1000:ℤ), (0:ℤ))), emptyLoc)])
      ((1:ℤ), (0:ℤ)) = none
  ∧ (rList 2 998
      ++ [((((0:ℤ), (0:ℤ))), emptyLoc), ((((1000:ℤ), (0:ℤ))), emptyLoc)]).length = 1000
  ∧ (rev_geocode okCollab
      { fullCacheState with
          revCache := rList 2 998
            ++ [((((0:ℤ), (0:ℤ))), emptyLoc), ((((1000:ℤ), (0:ℤ))), emptyLoc)],
          revCalls := fullCacheState.revCalls + 1 }
      (.vnum (1/1000)) (.vnum 0)).1.revCalls = fullCacheState.revCalls + 2 := by
  have h0r : assocLookup (rList 2 998) ((0:ℤ), (0:ℤ)) = none := by
    apply rList_lookup_none
    intro i hi hcon
    rw [Prod.mk.injEq] at hcon
    obtain ⟨h1, -⟩ := hcon
    omega
  have h1r : assocLookup (rList 2 998) ((1:ℤ), (0:ℤ)) = none := by
    apply rList_lookup_none
    intro i hi hcon
    rw [Prod.mk.injEq] at hcon
    obtain ⟨h1, -⟩ := hcon
    omega
  have hfr : assocLookup (rList 2 998) ((1000:ℤ), (0:ℤ)) = none := by
    apply rList_lookup_none
    intro i hi hcon
    rw [Prod.mk.injEq] at hcon
    obtain ⟨h1, -⟩ := hcon
    omega
  have h := C8_theorem okCollab fullCacheState
    ((0:ℤ), (0:ℤ)) ((1:ℤ), (0:ℤ)) ((1000:ℤ), (0:ℤ)) emptyLoc emptyLoc emptyLoc
    (rList 2 998)
    (.vnum 0) (.vnum 0) (.vnum 1) (.vnum 0) (.vnum (1/1000)) (.vnum 0) []
    rfl
    (by simp [rList])
    (by decide)
    h0r h1r
    (by decide) (by decide)
    hfr
    (by norm_num [revKeyV])
    (by norm_num [revKeyV])
    (by norm_num [revKeyV])
    rfl
    rfl
  exact ⟨h.2.2.2.1, h.2.2.1, h.2.2.2.2.2.1⟩
